import Mathlib

/-!
Shallow embedding of `src/lib/Crypto/Random/OSRNG/posix.py`.

The module defines `BaseRNG` (read/close/flush contract and the startup
self-test) and its only concrete subclass `DevURandomRNG` (opens a
character-special device and implements the raw `_read` retry loop).
Bytes are modelled as `List Nat`; Python exceptions become constructors of
`PyError`, one per raise site of the source file.  The underlying file
object is modelled as a script (`List ReadEvent`) where each event is the
return behaviour of one call to `self.__file.read(k)`: a chunk of bytes
(the embedding keeps read(2) semantics by taking at most `k` of them),
`None` (non-blocking mode, no data available), or an `IOError` with an
errno.
-/

/-- `errno.EINTR` on POSIX systems. -/
def EINTR : Nat := 4

/-- One return behaviour of a call to `self.__file.read(k)` in
`DevURandomRNG._read`: a byte chunk, `None` (non-blocking, no data), or a
raised `IOError` with the given errno. -/
inductive ReadEvent where
  | chunk (c : List Nat)
  | noData
  | ioerr (e : Nat)
deriving Repr, DecidableEq

/-- Python exceptions raised by `posix.py`, one constructor per raise site:
- `closedValueError`: `ValueError("I/O operation on closed file")`
- `typeErrorIntRequired`: `TypeError("an integer is required")`
- `negativeValueError`: `ValueError("cannot read to end of infinite stream")`
- `truncatedAssertion req got`: `AssertionError("%s produced truncated
  output (requested %d, got %d)")` carrying the two counts
- `selftestTruncated`: `AssertionError("read truncated")`
- `selftestDuplicate`: `AssertionError("OS RNG returned duplicate data")`
- `notCharDevice name`: `TypeError("%r is not a character special device")`
- `ioError e`: an `IOError` with errno `e` re-raised by `_read`. -/
inductive PyError where
  | closedValueError
  | typeErrorIntRequired
  | negativeValueError
  | truncatedAssertion (requested : Nat) (got : Nat)
  | selftestTruncated
  | selftestDuplicate
  | notCharDevice (name : String)
  | ioError (e : Nat)
deriving Repr, DecidableEq

/-- The Python argument passed to `read`: either a value for which
`isinstance(N, (long, int))` holds, or any other value. -/
inductive PyArg where
  | pyInt (n : Int)
  | nonInt (desc : String)
deriving Repr, DecidableEq

/-- Result of the raw `DevURandomRNG._read` loop: normal return of the
accumulated bytes together with the unconsumed remainder of the script, a
re-raised non-EINTR `IOError`, or `blocked` when the script is exhausted
while more bytes are still needed (the real call would block in read(2)). -/
inductive RawResult where
  | ok (data : List Nat) (rest : List ReadEvent)
  | ioerror (e : Nat)
  | blocked
deriving Repr, DecidableEq

/-- `DevURandomRNG._read(N)`: loop `while len(data) < N`, each iteration
performing one `self.__file.read(N - len(data))` (one script event).
`IOError` with `errno.EINTR` redoes the read; any other `IOError`
propagates; `d is None` (non-blocking, no data) and `len(d) == 0`
(blocking mode EOF) return the bytes accumulated so far; otherwise the
chunk is appended (`data += d`).  `c.take (N - data.length)` embeds the
read(2) guarantee that a read of `k` bytes returns at most `k` bytes. -/
def devRead : List ReadEvent → Nat → List Nat → RawResult
  | evs, N, data =>
    if N ≤ data.length then .ok data evs
    else
      match evs with
      | [] => .blocked
      | .ioerr e :: rest =>
          if e = EINTR then devRead rest N data else .ioerror e
      | .noData :: rest => .ok data rest
      | .chunk c :: rest =>
          let d := c.take (N - data.length)
          if d.isEmpty then .ok data rest
          else devRead rest N (data ++ d)

/-- State of a `DevURandomRNG` facade: the `closed` flag set by
`BaseRNG.__init__` / `close`, and the script of the underlying device
file. -/
structure RNGState where
  closed : Bool
  events : List ReadEvent
deriving Repr, DecidableEq

/-- Result of `BaseRNG.read`: bytes plus the successor state, a raised
exception, or `blocked` when the device script is exhausted. -/
inductive ReadOutcome where
  | ok (data : List Nat) (s : RNGState)
  | err (e : PyError)
  | blocked
deriving Repr, DecidableEq

namespace BaseRNG

/-- `BaseRNG.read(N)` with `_read` instantiated by `DevURandomRNG._read`
(the only subclass in the file): raise `ValueError` if `self.closed`;
`TypeError` if `N` is not an integer; `ValueError` if `N < 0`; return `""`
if `N == 0`; otherwise `data = self._read(N)` and raise `AssertionError`
carrying `(N, len(data))` when `len(data) != N`. -/
def read (s : RNGState) (N : PyArg) : ReadOutcome :=
  if s.closed then .err .closedValueError
  else
    match N with
    | .nonInt _ => .err .typeErrorIntRequired
    | .pyInt n =>
      if n < 0 then .err .negativeValueError
      else if n = 0 then .ok [] s
      else
        match devRead s.events n.toNat [] with
        | .ioerror e => .err (.ioError e)
        | .blocked => .blocked
        | .ok data rest =>
            if data.length ≠ n.toNat then
              .err (.truncatedAssertion n.toNat data.length)
            else .ok data { s with events := rest }

/-- `BaseRNG.close()`: `if not self.closed: self._close()` then
`self.closed = True`.  Returns the new state together with whether the
underlying channel close (`self._close`, i.e. `self.__file.close()`) was
invoked. -/
def close (s : RNGState) : RNGState × Bool :=
  if ¬ s.closed then ({ s with closed := true }, true)
  else ({ s with closed := true }, false)

/-- `BaseRNG.flush()`: `pass`. -/
def flush (s : RNGState) : RNGState := s

/-- Result of `BaseRNG._selftest` / construction: the ready state, a
raised exception, or `blocked`. -/
inductive InitResult where
  | ok (s : RNGState)
  | err (e : PyError)
  | blocked
deriving Repr, DecidableEq

/-- `BaseRNG._selftest()`: `data = self.read(16)`, raise
`AssertionError("read truncated")` if `len(data) != 16`; then
`data2 = self.read(16)`, raise `AssertionError("OS RNG returned duplicate
data")` if `data == data2`. -/
def selftest (s : RNGState) : InitResult :=
  match read s (.pyInt 16) with
  | .blocked => .blocked
  | .err e => .err e
  | .ok data s1 =>
    if data.length ≠ 16 then .err .selftestTruncated
    else
      match read s1 (.pyInt 16) with
      | .blocked => .blocked
      | .err e => .err e
      | .ok data2 s2 =>
        if data = data2 then .err .selftestDuplicate
        else .ok s2

end BaseRNG

/-- The opened device node seen by `DevURandomRNG.__init__`: whether
`stat.S_ISCHR(os.fstat(f.fileno())[stat.ST_MODE])` holds, and the script
of the opened file object. -/
structure DeviceNode where
  isChr : Bool
  events : List ReadEvent
deriving Repr, DecidableEq

namespace DevURandomRNG

/-- `DevURandomRNG.__init__(devname)`: after `open(self.name, "rb", 0)`
succeeds, raise `TypeError("%r is not a character special device")` unless
the fstat mode is character-special; then `BaseRNG.__init__` sets
`self.closed = False` and runs `self._selftest()`. -/
def init (name : String) (node : DeviceNode) : BaseRNG.InitResult :=
  if ¬ node.isChr then .err (.notCharDevice name)
  else BaseRNG.selftest { closed := false, events := node.events }

end DevURandomRNG

/-! ### Unfolding lemmas for the raw read loop -/

/-- The loop exits as soon as at least `N` bytes are accumulated. -/
lemma devRead_done (evs : List ReadEvent) (N : Nat) (data : List Nat)
    (h : N ≤ data.length) : devRead evs N data = .ok data evs := by
  rw [devRead.eq_def]
  simp [h]

/-- An exhausted script with bytes still needed blocks. -/
lemma devRead_nil (N : Nat) (data : List Nat) (h : data.length < N) :
    devRead [] N data = .blocked := by
  rw [devRead.eq_def]
  simp [Nat.not_le.mpr h]

/-- An IOError event: EINTR redoes the read, any other errno propagates. -/
lemma devRead_ioerr (e : Nat) (evs : List ReadEvent) (N : Nat) (data : List Nat)
    (h : data.length < N) :
    devRead (.ioerr e :: evs) N data =
      if e = EINTR then devRead evs N data else .ioerror e := by
  rw [devRead.eq_def]
  simp [Nat.not_le.mpr h]

/-- A `None` return ends the loop with the bytes accumulated so far. -/
lemma devRead_noData (evs : List ReadEvent) (N : Nat) (data : List Nat)
    (h : data.length < N) :
    devRead (.noData :: evs) N data = .ok data evs := by
  rw [devRead.eq_def]
  simp [Nat.not_le.mpr h]

/-- A chunk event: an empty delivery ends the loop, otherwise the bytes are
appended and the loop continues. -/
lemma devRead_chunk (c : List Nat) (evs : List ReadEvent) (N : Nat)
    (data : List Nat) (h : data.length < N) :
    devRead (.chunk c :: evs) N data =
      if (c.take (N - data.length)).isEmpty then .ok data evs
      else devRead evs N (data ++ c.take (N - data.length)) := by
  rw [devRead.eq_def]
  simp [Nat.not_le.mpr h]

/-- The loop never accumulates more than `N` bytes: each iteration asks the
file for only `N - len(data)` bytes. -/
lemma devRead_ok_length_le (evs : List ReadEvent) :
    ∀ (N : Nat) (data out : List Nat) (rest : List ReadEvent),
      data.length ≤ N → devRead evs N data = .ok out rest → out.length ≤ N := by
  induction evs with
  | nil =>
      intro N data out rest hle h
      by_cases hN : N ≤ data.length
      · rw [devRead_done _ _ _ hN] at h
        cases h
        exact hle
      · rw [devRead_nil _ _ (Nat.lt_of_not_le hN)] at h
        cases h
  | cons e tl ih =>
      intro N data out rest hle h
      by_cases hN : N ≤ data.length
      · rw [devRead_done _ _ _ hN] at h
        cases h
        exact hle
      · have hlt : data.length < N := Nat.lt_of_not_le hN
        match e with
        | .ioerr err =>
            rw [devRead_ioerr _ _ _ _ hlt] at h
            by_cases he : err = EINTR
            · rw [if_pos he] at h
              exact ih N data out rest hle h
            · rw [if_neg he] at h
              cases h
        | .noData =>
            rw [devRead_noData _ _ _ hlt] at h
            cases h
            exact hle
        | .chunk c =>
            rw [devRead_chunk _ _ _ _ hlt] at h
            by_cases hemp : (c.take (N - data.length)).isEmpty
            · rw [if_pos hemp] at h
              cases h
              exact hle
            · rw [if_neg hemp] at h
              refine ih N _ out rest ?_ h
              simp only [List.length_append, List.length_take]
              omega

/-! ### Inversion lemmas for `BaseRNG.read` -/

namespace BaseRNG

/-- On a closed facade every `read` call raises the closed-file error. -/
lemma read_closed (s : RNGState) (N : PyArg) (hc : s.closed = true) :
    read s N = .err .closedValueError := by
  simp [read, hc]

/-- On an open facade with a positive integer request, `read` is the lift
of the raw loop plus the exact-length check. -/
lemma read_pos (s : RNGState) (n : Int) (hc : s.closed = false) (hn : 0 < n) :
    read s (.pyInt n) =
      match devRead s.events n.toNat [] with
      | .ioerror e => .err (.ioError e)
      | .blocked => .blocked
      | .ok data rest =>
          if data.length ≠ n.toNat then
            .err (.truncatedAssertion n.toNat data.length)
          else .ok data { s with events := rest } := by
  have h1 : ¬ n < 0 := by omega
  have h2 : ¬ n = 0 := by omega
  simp [read, hc, h1, h2]

/-- Computation rule: the outcome of `read` once the raw loop result is
known. -/
lemma read_of_devRead (s : RNGState) (n : Int) (data : List Nat)
    (rest : List ReadEvent) (hc : s.closed = false) (hn : 0 < n)
    (hdev : devRead s.events n.toNat [] = .ok data rest) :
    read s (.pyInt n) =
      if data.length ≠ n.toNat then
        .err (.truncatedAssertion n.toNat data.length)
      else .ok data { s with events := rest } := by
  rw [read_pos s n hc hn, hdev]

/-- Computation rule for `read(0)` on an open facade: empty buffer,
unchanged state. -/
lemma read_zero_open (s : RNGState) (hc : s.closed = false) :
    read s (.pyInt 0) = .ok [] s := by
  simp [read, hc]

/-- Computation rule for a negative request on an open facade. -/
lemma read_neg_open (s : RNGState) (n : Int) (hc : s.closed = false)
    (hn : n < 0) : read s (.pyInt n) = .err .negativeValueError := by
  simp [read, hc, hn]

/-- Computation rule for a non-integer argument on an open facade. -/
lemma read_nonInt_open (s : RNGState) (desc : String) (hc : s.closed = false) :
    read s (.nonInt desc) = .err .typeErrorIntRequired := by
  simp [read, hc]

/-- Inversion: everything a successful `read` guarantees. -/
lemma read_ok_inv (s : RNGState) (n : Int) (data : List Nat) (s1 : RNGState)
    (h : read s (.pyInt n) = .ok data s1) :
    s.closed = false ∧ 0 ≤ n ∧ data.length = n.toNat ∧
      ((n = 0 ∧ data = [] ∧ s1 = s) ∨
        (0 < n ∧ ∃ rest, devRead s.events n.toNat [] = .ok data rest ∧
          s1 = { s with events := rest })) := by
  by_cases hc : s.closed
  · rw [read_closed s _ hc] at h
    simp at h
  · simp only [Bool.not_eq_true] at hc
    by_cases hneg : n < 0
    · rw [read_neg_open s n hc hneg] at h
      simp at h
    · by_cases hz : n = 0
      · subst hz
        rw [read_zero_open s hc] at h
        simp only [ReadOutcome.ok.injEq] at h
        obtain ⟨h1, h2⟩ := h
        exact ⟨hc, le_refl 0, by simp [← h1], Or.inl ⟨rfl, h1.symm, h2.symm⟩⟩
      · have hpos : 0 < n := by omega
        rw [read_pos s n hc hpos] at h
        cases hdev : devRead s.events n.toNat [] with
        | ioerror e => rw [hdev] at h; simp at h
        | blocked => rw [hdev] at h; simp at h
        | ok d rest =>
            rw [hdev] at h
            dsimp only at h
            by_cases hlen : d.length ≠ n.toNat
            · rw [if_pos hlen] at h
              simp at h
            · rw [if_neg hlen] at h
              simp only [ReadOutcome.ok.injEq] at h
              obtain ⟨h1, h2⟩ := h
              subst h1
              push_neg at hlen
              exact ⟨hc, by omega, hlen, Or.inr ⟨hpos, rest, rfl, h2.symm⟩⟩

/-- Inversion: everything a truncation failure of `read` guarantees, in
particular that the carried counts are the requested count and the actual
accumulated count. -/
lemma read_trunc_inv (s : RNGState) (n : Int) (req got : Nat)
    (h : read s (.pyInt n) = .err (.truncatedAssertion req got)) :
    s.closed = false ∧ 0 < n ∧ req = n.toNat ∧ got ≠ n.toNat ∧
      ∃ data rest, devRead s.events n.toNat [] = .ok data rest ∧
        data.length = got := by
  by_cases hc : s.closed
  · rw [read_closed s _ hc] at h
    simp at h
  · simp only [Bool.not_eq_true] at hc
    by_cases hneg : n < 0
    · rw [read_neg_open s n hc hneg] at h
      simp at h
    · by_cases hz : n = 0
      · subst hz
        rw [read_zero_open s hc] at h
        simp at h
      · have hpos : 0 < n := by omega
        rw [read_pos s n hc hpos] at h
        cases hdev : devRead s.events n.toNat [] with
        | ioerror e => rw [hdev] at h; simp at h
        | blocked => rw [hdev] at h; simp at h
        | ok d rest =>
            rw [hdev] at h
            dsimp only at h
            by_cases hlen : d.length ≠ n.toNat
            · rw [if_pos hlen] at h
              simp only [ReadOutcome.err.injEq,
                PyError.truncatedAssertion.injEq] at h
              obtain ⟨h1, h2⟩ := h
              exact ⟨hc, hpos, h1.symm, by omega, d, rest, rfl, h2⟩
            · rw [if_neg hlen] at h
              simp at h

end BaseRNG

/-! ### Lemmas for `BaseRNG._selftest` -/

namespace BaseRNG

/-- An exception raised by the first `self.read(16)` propagates out of the
self-test. -/
lemma selftest_err_first (s0 : RNGState) (e : PyError)
    (h : read s0 (.pyInt 16) = .err e) : selftest s0 = .err e := by
  simp only [selftest]
  rw [h]

/-- An exception raised by the second `self.read(16)` propagates out of the
self-test. -/
lemma selftest_err_second (s0 s1 : RNGState) (d : List Nat) (e : PyError)
    (h1 : read s0 (.pyInt 16) = .ok d s1)
    (h2 : read s1 (.pyInt 16) = .err e) : selftest s0 = .err e := by
  have hl : d.length = 16 := by
    have hinv := read_ok_inv s0 16 d s1 h1
    simpa using hinv.2.2.1
  simp only [selftest]
  rw [h1]
  dsimp only
  rw [if_neg (by simp [hl]), h2]

/-- Two identical 16-byte draws make the self-test raise the duplicate-data
assertion. -/
lemma selftest_dup (s0 s1 s2 : RNGState) (d : List Nat)
    (h1 : read s0 (.pyInt 16) = .ok d s1)
    (h2 : read s1 (.pyInt 16) = .ok d s2) :
    selftest s0 = .err .selftestDuplicate := by
  have hl : d.length = 16 := by
    have hinv := read_ok_inv s0 16 d s1 h1
    simpa using hinv.2.2.1
  simp only [selftest]
  rw [h1]
  dsimp only
  rw [if_neg (by simp [hl]), h2]
  dsimp only
  rw [if_pos rfl]

/-- Inversion: a facade that finished the self-test made two successful
16-byte reads that returned different data. -/
lemma selftest_ok_inv (s0 s2 : RNGState) (h : selftest s0 = .ok s2) :
    ∃ d1 s1 d2, read s0 (.pyInt 16) = .ok d1 s1 ∧ d1.length = 16 ∧
      read s1 (.pyInt 16) = .ok d2 s2 ∧ d2.length = 16 ∧ d1 ≠ d2 := by
  simp only [selftest] at h
  cases h1 : read s0 (.pyInt 16) with
  | err e => rw [h1] at h; simp at h
  | blocked => rw [h1] at h; simp at h
  | ok d1 s1 =>
      rw [h1] at h
      dsimp only at h
      have hl1 : d1.length = 16 := by
        have hinv := read_ok_inv s0 16 d1 s1 h1
        simpa using hinv.2.2.1
      rw [if_neg (by simp [hl1])] at h
      cases h2 : read s1 (.pyInt 16) with
      | err e => rw [h2] at h; simp at h
      | blocked => rw [h2] at h; simp at h
      | ok d2 s2x =>
          rw [h2] at h
          dsimp only at h
          by_cases hd : d1 = d2
          · rw [if_pos hd] at h
            simp at h
          · rw [if_neg hd] at h
            simp only [InitResult.ok.injEq] at h
            subst h
            have hl2 : d2.length = 16 := by
              have hinv := read_ok_inv s1 16 d2 s2x h2
              simpa using hinv.2.2.1
            exact ⟨d1, s1, d2, rfl, hl1, h2, hl2, hd⟩

end BaseRNG

/-! ### Claim theorems -/

/-- Claim C1: for every integer n ≥ 0, read(n) on a facade that is not
closed either returns a byte buffer of length exactly n or raises an error
(the closed-file ValueError after close, the truncation AssertionError when
the channel starved); it never returns a buffer whose length differs from
n, and the truncation error carries both the requested and the actual byte
counts. -/
theorem read_exact_or_truncation (s : RNGState) (n : Int) (h : 0 ≤ n) :
    (s.closed = true → BaseRNG.read s (.pyInt n) = .err .closedValueError) ∧
    (∀ data s1, BaseRNG.read s (.pyInt n) = .ok data s1 →
      data.length = n.toNat) ∧
    (∀ req got,
      BaseRNG.read s (.pyInt n) = .err (.truncatedAssertion req got) →
      req = n.toNat ∧ got ≠ n.toNat ∧
        ∃ data rest, devRead s.events n.toNat [] = .ok data rest ∧
          data.length = got) := by
  refine ⟨fun hc => BaseRNG.read_closed s _ hc, ?_, ?_⟩
  · intro data s1 hr
    exact (BaseRNG.read_ok_inv s n data s1 hr).2.2.1
  · intro req got hr
    have hi := BaseRNG.read_trunc_inv s n req got hr
    exact ⟨hi.2.2.1, hi.2.2.2.1, hi.2.2.2.2⟩

/-- Witness for C1: a concrete two-byte read returns exactly two bytes. -/
theorem read_exact_or_truncation_witness :
    BaseRNG.read ⟨false, [.chunk [5, 5]]⟩ (.pyInt 2) =
      .ok [5, 5] ⟨false, []⟩ ∧
    ([5, 5] : List Nat).length = (2 : Int).toNat :=
  ⟨by decide,
    (read_exact_or_truncation ⟨false, [.chunk [5, 5]]⟩ 2 (by decide)).2.1
      [5, 5] ⟨false, []⟩ (by decide)⟩

/-- Claim C2: facade construction self-tests with two independent 16-byte
reads; construction fails whenever a read delivers data of length other
than 16 or the two samples are bit-for-bit identical, and a successfully
constructed facade has passed both checks. -/
theorem selftest_guards_construction (name : String) (node : DeviceNode)
    (h : node.isChr = true) :
    (∀ d s1 s2,
      BaseRNG.read ⟨false, node.events⟩ (.pyInt 16) = .ok d s1 →
      BaseRNG.read s1 (.pyInt 16) = .ok d s2 →
      DevURandomRNG.init name node = .err .selftestDuplicate) ∧
    (∀ data rest, devRead node.events 16 [] = .ok data rest →
      data.length ≠ 16 →
      DevURandomRNG.init name node =
        .err (.truncatedAssertion 16 data.length)) ∧
    (∀ s2, DevURandomRNG.init name node = .ok s2 →
      ∃ d1 s1 d2,
        BaseRNG.read ⟨false, node.events⟩ (.pyInt 16) = .ok d1 s1 ∧
        d1.length = 16 ∧ BaseRNG.read s1 (.pyInt 16) = .ok d2 s2 ∧
        d2.length = 16 ∧ d1 ≠ d2) := by
  refine ⟨?_, ?_, ?_⟩
  · intro d s1 s2 h1 h2
    have hst := BaseRNG.selftest_dup ⟨false, node.events⟩ s1 s2 d h1 h2
    simp [DevURandomRNG.init, h, hst]
  · intro data rest hdev hlen
    have hr := BaseRNG.read_of_devRead ⟨false, node.events⟩ 16 data rest rfl
      (by norm_num) (by simpa using hdev)
    rw [if_pos (by simpa using hlen)] at hr
    have hst := BaseRNG.selftest_err_first ⟨false, node.events⟩ _ hr
    simp only [DevURandomRNG.init, h, not_true, Bool.not_eq_true,
      if_false] at hst ⊢
    simpa using hst
  · intro s2 hinit
    simp only [DevURandomRNG.init, h, Bool.not_eq_true] at hinit
    rw [if_neg (by simp)] at hinit
    exact BaseRNG.selftest_ok_inv ⟨false, node.events⟩ s2 hinit

/-- Witness for C2: a mock source delivering the same 16 bytes twice makes
construction fail with the duplicate-data assertion. -/
theorem selftest_guards_construction_witness :
    DevURandomRNG.init "/dev/urandom"
        ⟨true, [.chunk (List.replicate 16 7), .chunk (List.replicate 16 7)]⟩ =
      .err .selftestDuplicate :=
  (selftest_guards_construction "/dev/urandom"
      ⟨true, [.chunk (List.replicate 16 7), .chunk (List.replicate 16 7)]⟩
      rfl).1
    (List.replicate 16 7) ⟨false, [.chunk (List.replicate 16 7)]⟩ ⟨false, []⟩
    (by decide) (by decide)

/-- Claim C3: constructing the facade over an opened node that is not a
character-special device fails with the wrong-device TypeError and never
yields a usable facade, whatever the device would have delivered. -/
theorem init_rejects_non_chardev (name : String) (node : DeviceNode)
    (h : node.isChr = false) :
    DevURandomRNG.init name node = .err (.notCharDevice name) ∧
    ∀ s, DevURandomRNG.init name node ≠ .ok s := by
  have he : DevURandomRNG.init name node = .err (.notCharDevice name) := by
    simp [DevURandomRNG.init, h]
  exact ⟨he, fun s hs => by rw [he] at hs; cases hs⟩

/-- Witness for C3: a regular-file node is rejected on construction. -/
theorem init_rejects_non_chardev_witness :
    DevURandomRNG.init "/tmp/regular" ⟨false, [.chunk [1, 2]]⟩ =
      .err (.notCharDevice "/tmp/regular") :=
  (init_rejects_non_chardev "/tmp/regular" ⟨false, [.chunk [1, 2]]⟩ rfl).1

/-- Counterexample to C4 as stated: on a closed facade, read(0) does not
return an empty buffer; the closed-state check precedes the n == 0 check,
so it raises the closed-file ValueError. -/
theorem read_zero_closed_cex :
    BaseRNG.read ⟨true, []⟩ (.pyInt 0) = .err .closedValueError ∧
    BaseRNG.read ⟨true, []⟩ (.pyInt 0) ≠ .ok [] ⟨true, []⟩ := by
  decide

/-- Claim C4 (amended): on a facade that is not closed, read(0) returns an
empty buffer and performs no device I/O (the state, events included, is
unchanged); on a closed facade read(0) fails with the closed-file error. -/
theorem read_zero_contract (s : RNGState) :
    (s.closed = false → BaseRNG.read s (.pyInt 0) = .ok [] s) ∧
    (s.closed = true → BaseRNG.read s (.pyInt 0) = .err .closedValueError) :=
  ⟨fun hc => BaseRNG.read_zero_open s hc, fun hc => BaseRNG.read_closed s _ hc⟩

/-- Witness for C4 (amended): both branches at concrete states. -/
theorem read_zero_contract_witness :
    BaseRNG.read ⟨false, [.chunk [3]]⟩ (.pyInt 0) =
      .ok [] ⟨false, [.chunk [3]]⟩ ∧
    BaseRNG.read ⟨true, [.chunk [3]]⟩ (.pyInt 0) = .err .closedValueError :=
  ⟨(read_zero_contract ⟨false, [.chunk [3]]⟩).1 rfl,
   (read_zero_contract ⟨true, [.chunk [3]]⟩).2 rfl⟩

/-- Counterexample to C5 as stated: on a closed facade, read(-1) raises the
closed-file error, not the invalid-argument error; the closed-state check
precedes the sign check. -/
theorem read_negative_closed_cex :
    BaseRNG.read ⟨true, []⟩ (.pyInt (-1)) = .err .closedValueError ∧
    BaseRNG.read ⟨true, []⟩ (.pyInt (-1)) ≠ .err .negativeValueError := by
  decide

/-- Claim C5 (amended): on a facade that is not closed, read(n) for any
integer n < 0 fails with the invalid-argument ValueError and performs no
device I/O; on a closed facade it fails with the closed-file error. -/
theorem read_negative_contract (s : RNGState) (n : Int) (hn : n < 0) :
    (s.closed = false →
      BaseRNG.read s (.pyInt n) = .err .negativeValueError) ∧
    (s.closed = true →
      BaseRNG.read s (.pyInt n) = .err .closedValueError) :=
  ⟨fun hc => BaseRNG.read_neg_open s n hc hn,
   fun hc => BaseRNG.read_closed s _ hc⟩

/-- Witness for C5 (amended): both branches at read(-1). -/
theorem read_negative_contract_witness :
    BaseRNG.read ⟨false, []⟩ (.pyInt (-1)) = .err .negativeValueError ∧
    BaseRNG.read ⟨true, []⟩ (.pyInt (-1)) = .err .closedValueError :=
  ⟨(read_negative_contract ⟨false, []⟩ (-1) (by decide)).1 rfl,
   (read_negative_contract ⟨true, []⟩ (-1) (by decide)).2 rfl⟩

/-- Claim C6: after close, every read(n) with n > 0 fails with the
closed-file error and returns no bytes. -/
theorem read_after_close_fails (s : RNGState) (n : Int)
    (hc : s.closed = true) (hn : 0 < n) :
    BaseRNG.read s (.pyInt n) = .err .closedValueError ∧
    ∀ data s1, BaseRNG.read s (.pyInt n) ≠ .ok data s1 := by
  have he := BaseRNG.read_closed s (.pyInt n) hc
  exact ⟨he, fun data s1 hs => by rw [he] at hs; cases hs⟩

/-- Witness for C6: read(1) on a closed facade with data still available in
the device raises the closed-file error. -/
theorem read_after_close_fails_witness :
    BaseRNG.read ⟨true, [.chunk [1]]⟩ (.pyInt 1) = .err .closedValueError :=
  (read_after_close_fails ⟨true, [.chunk [1]]⟩ 1 rfl (by decide)).1

/-- Claim C7: close is idempotent; a second close is a no-op that does not
fail, the underlying channel close runs only on the first call, and after
any close the facade is closed (its device script untouched). -/
theorem close_idempotent_single_release (s : RNGState) :
    (BaseRNG.close s).1.closed = true ∧
    BaseRNG.close (BaseRNG.close s).1 = ((BaseRNG.close s).1, false) ∧
    ((BaseRNG.close s).2 = true ↔ s.closed = false) ∧
    (BaseRNG.close s).1.events = s.events := by
  cases s with
  | mk c evs => cases c <;> simp [BaseRNG.close]

/-- Claim C8: the raw channel read transparently redoes the read on EINTR,
returns the accumulated bytes on a None return or an empty (EOF) chunk
without raising, never accumulates more than the requested count, and a
read interrupted once by a signal and then satisfied returns the full
requested count. -/
theorem raw_read_retries_and_accumulates (N : Nat) (evs : List ReadEvent)
    (data d : List Nat) (h1 : data.length < N) (h2 : d.length = N) :
    devRead (.ioerr EINTR :: evs) N data = devRead evs N data ∧
    devRead (.noData :: evs) N data = .ok data evs ∧
    devRead (.chunk [] :: evs) N data = .ok data evs ∧
    (∀ out rest, devRead evs N data = .ok out rest → out.length ≤ N) ∧
    devRead [.ioerr EINTR, .chunk d] N [] = .ok d [] := by
  refine ⟨?_, devRead_noData evs N data h1, ?_, ?_, ?_⟩
  · rw [devRead_ioerr _ _ _ _ h1, if_pos rfl]
  · rw [devRead_chunk _ _ _ _ h1]
    simp
  · exact fun out rest hout =>
      devRead_ok_length_le evs N data out rest (le_of_lt h1) hout
  · have h0 : ([] : List Nat).length < N := by
      simp only [List.length_nil]
      omega
    rw [devRead_ioerr _ _ _ _ h0, if_pos rfl, devRead_chunk _ _ _ _ h0]
    have ht : d.take (N - ([] : List Nat).length) = d := by
      have hNd : N - ([] : List Nat).length = d.length := by simp [h2]
      rw [hNd, List.take_length]
    rw [ht]
    have hne : ¬ (d.isEmpty = true) := by
      cases d with
      | nil => simp at h2; omega
      | cons a tl => simp
    rw [if_neg hne]
    have hle : N ≤ ([] ++ d : List Nat).length := by simp [h2]
    rw [devRead_done [] N ([] ++ d) hle]
    simp

/-- Witness for C8: a two-byte read interrupted once by EINTR and then
satisfied in one chunk returns both bytes. -/
theorem raw_read_retries_and_accumulates_witness :
    ([] : List Nat).length < 2 ∧ ([7, 9] : List Nat).length = 2 ∧
    devRead [.ioerr EINTR, .chunk [7, 9]] 2 [] = .ok [7, 9] [] :=
  ⟨by decide, by decide,
    (raw_read_retries_and_accumulates 2 [.noData] [] [7, 9]
      (by decide) (by decide)).2.2.2.2⟩

/-- Claim C9: flush is a no-op in every state, closed included: it changes
no state, performs no device I/O, and never raises. -/
theorem flush_is_noop (s : RNGState) : BaseRNG.flush s = s := rfl

/-- Claim C10: on a facade that is not closed, read with a non-integer
argument raises TypeError before any device I/O; the type check runs ahead
of the sign check and of any channel read, whatever the device script
holds. -/
theorem read_requires_integer (s : RNGState) (desc : String)
    (hc : s.closed = false) :
    BaseRNG.read s (.nonInt desc) = .err .typeErrorIntRequired :=
  BaseRNG.read_nonInt_open s desc hc

/-- Witness for C10: a float argument on an open facade. -/
theorem read_requires_integer_witness :
    BaseRNG.read ⟨false, [.chunk [1]]⟩ (.nonInt "float 1.5") =
      .err .typeErrorIntRequired :=
  read_requires_integer ⟨false, [.chunk [1]]⟩ "float 1.5" rfl
